import Mathlib

/-!
Verification of `src/extraction/download_images.py` (Orcas History image
batch downloader) against its specification.

The script is a sequential batch fetcher: for each URL it computes a
zero-padded photo id (`f"{start_num + i:04d}"`), issues one HTTP GET with a
30-second timeout and a `Mozilla/5.0` User-Agent, writes the raw response
body to `<IMAGES_DIR>/<photo_id>.jpg`, and records the outcome in a results
dictionary (`success` count, `failed` list, `sizes` list).  Any exception in
the per-item `try` block is caught and recorded as a failure.

The embedding below is a shallow one: the nondeterministic external world
(network and filesystem) is a function assigning to every item index an
`ItemWorld` describing whether the fetch raises or returns a byte body and
whether the subsequent file write raises or succeeds.  The loop is a pure
recursion producing a `Trace`: the results dictionary plus the observable
event lists (photo ids computed, HTTP requests issued, files written).
-/

namespace OrcasHistory

/-- External-world outcome of one loop item: `fetch` is the combined result of
`urllib.request.urlopen` + `response.read()` (an exception message, or the raw
body as a list of byte values); `write` is the result of
`filepath.write_bytes` (an exception message, or success), relevant only when
the fetch succeeded. -/
structure ItemWorld where
  fetch : Except String (List Nat)
  write : Except String Unit

/-- One HTTP request as issued by `urllib.request.Request(url, headers=...)`
plus the `timeout=30` passed to `urlopen`. -/
structure Request where
  url : String
  userAgent : String
  timeout : Nat
deriving DecidableEq

/-- The `results` dictionary of `download_batch`:
`{"success": 0, "failed": [], "sizes": []}`. -/
structure BatchResult where
  success : Nat
  failed : List (String × String)
  sizes : List (String × Nat)
deriving DecidableEq

/-- The observable outcome of a batch run: the results dictionary together
with the trace of photo ids computed (line `photo_id = f"{start_num + i:04d}"`),
HTTP requests issued, and files written (path, bytes). -/
structure Trace where
  result : BatchResult
  ids : List String
  requests : List Request
  files : List (String × List Nat)
deriving DecidableEq

/-- Decimal digit characters of a natural number, most significant first;
the digit string produced by Python's `d` format code. -/
def natDigits (n : Nat) : List Char :=
  if _h : n < 10 then [Nat.digitChar n]
  else natDigits (n / 10) ++ [Nat.digitChar (n % 10)]
decreasing_by exact Nat.div_lt_self (by omega) (by omega)

/-- Left-pad a string with `'0'` up to width `w` (no effect when already at
least that wide), as Python's zero-fill does after any sign. -/
def padLeft (s : String) (w : Nat) : String :=
  ⟨List.replicate (w - s.length) '0' ++ s.data⟩

/-- Python `f"{n:04d}"`: zero-fill to a minimum total width of 4, the sign
included in the width, digits never truncated. -/
def photoId (n : Int) : String :=
  if n < 0 then "-" ++ padLeft ⟨natDigits (-n).toNat⟩ 3
  else padLeft ⟨natDigits n.toNat⟩ 4

/-- The fixed output directory `IMAGES_DIR = Path(__file__).parent /
"extraction/data/images"`, as a path string. -/
def IMAGES_DIR : String := "extraction/data/images"

/-- `IMAGES_DIR / f"{photo_id}.jpg"`. -/
def filePath (pid : String) : String := IMAGES_DIR ++ "/" ++ pid ++ ".jpg"

/-- The User-Agent header the script sends: `{'User-Agent': 'Mozilla/5.0'}`. -/
def userAgentHeader : String := "Mozilla/5.0"

/-- The body of the `for i, url in enumerate(urls)` loop of `download_batch`,
processing the items from absolute index `i` on.  Each iteration computes the
photo id, builds the request, and runs the `try` block: on a fetch exception
or a write exception the item is recorded in `failed`; only when both succeed
is `success` incremented, the size recorded, and the file written. -/
def downloadLoop (start_num : Int) (world : Nat → ItemWorld) :
    Nat → List String → Trace
  | _, [] => ⟨⟨0, [], []⟩, [], [], []⟩
  | i, url :: rest =>
    let pid := photoId (start_num + i)
    let req : Request := ⟨url, userAgentHeader, 30⟩
    let t := downloadLoop start_num world (i + 1) rest
    match (world i).fetch with
    | .error e =>
      ⟨⟨t.result.success, (pid, e) :: t.result.failed, t.result.sizes⟩,
        pid :: t.ids, req :: t.requests, t.files⟩
    | .ok data =>
      match (world i).write with
      | .error e =>
        ⟨⟨t.result.success, (pid, e) :: t.result.failed, t.result.sizes⟩,
          pid :: t.ids, req :: t.requests, t.files⟩
      | .ok _ =>
        ⟨⟨t.result.success + 1, t.result.failed,
            (pid, data.length) :: t.result.sizes⟩,
          pid :: t.ids, req :: t.requests,
          (filePath pid, data) :: t.files⟩

/-- `download_batch(start_num, urls)` run against a given external world. -/
def download_batch (start_num : Int) (urls : List String)
    (world : Nat → ItemWorld) : Trace :=
  downloadLoop start_num world 0 urls

/-- The error message recorded for an item, when its `try` block raises:
the fetch exception if any, else the write exception if the write raises
after a successful fetch; `none` when the whole item succeeds. -/
def itemError (iw : ItemWorld) : Option String :=
  match iw.fetch with
  | .error e => some e
  | .ok _ =>
    match iw.write with
    | .error e => some e
    | .ok _ => none

/-- `true` when both the fetch and the write of an item succeed. -/
def itemOk (iw : ItemWorld) : Bool :=
  match iw.fetch, iw.write with
  | .ok _, .ok _ => true
  | _, _ => false

/-- Result of one `main()` invocation: the process exit status, whether the
usage message was printed, and the batch trace (`none` when no batch ran). -/
structure MainResult where
  exit : Nat
  usagePrinted : Bool
  trace : Option Trace
deriving DecidableEq

/-- `len(sys.argv) < 3`, or `int(sys.argv[1])` raises: the invocations on
which the process exits with status 1 (explicitly via `sys.exit(1)` after the
usage message, or through the uncaught `ValueError` of `int`). -/
def malformedInvocation (argv : List String) : Bool :=
  argv.length < 3 || ((argv.get? 1).bind String.toInt?).isNone

/-- `main()`: `argv` is `sys.argv` (program name included).  With fewer than
three entries it prints the usage message and exits with status 1 before any
download; otherwise it parses `start_num = int(sys.argv[1])` (an unparsable
value raises, terminating the process with status 1), runs the batch over
`urls = sys.argv[2:]`, prints the tally, and falls off the end (status 0). -/
def main (argv : List String) (world : Nat → ItemWorld) : MainResult :=
  if argv.length < 3 then ⟨1, true, none⟩
  else
    match (argv.get? 1).bind String.toInt? with
    | none => ⟨1, false, none⟩
    | some start_num => ⟨0, false, some (download_batch start_num (argv.drop 2) world)⟩

/-- The body bytes of an item that fully succeeds (fetch and write both
return), `none` otherwise. -/
def fetchedBytes (iw : ItemWorld) : Option (List Nat) :=
  match iw.fetch, iw.write with
  | .ok d, .ok _ => some d
  | _, _ => none

/-- A string that is exactly a 4-digit zero-padded numeral: four characters,
all decimal digits (in particular no sign). -/
def fourDigitId (x : String) : Bool :=
  x.length == 4 && x.data.all Char.isDigit

/-! ### Lemmas about decimal digits and padding -/

theorem natDigits_ne_nil (n : Nat) : natDigits n ≠ [] := by
  rw [natDigits]
  split <;> simp

theorem natDigits_length_pos (n : Nat) : 0 < (natDigits n).length :=
  List.length_pos.mpr (natDigits_ne_nil n)

theorem natDigits_length_le_iff :
    ∀ n k : Nat, ((natDigits n).length ≤ k + 1 ↔ n < 10 ^ (k + 1)) := by
  intro n
  induction n using Nat.strong_induction_on with
  | _ n ih =>
    intro k
    rw [natDigits]
    split
    · rename_i h
      simp only [List.length_singleton]
      constructor
      · intro _
        calc n < 10 := h
          _ = 10 ^ 1 := by norm_num
          _ ≤ 10 ^ (k + 1) := Nat.pow_le_pow_right (by norm_num) (by omega)
      · intro _; omega
    · rename_i h
      simp only [List.length_append, List.length_singleton]
      cases k with
      | zero =>
        have h1 := natDigits_length_pos (n / 10)
        have h2 : (10 : Nat) ^ 1 = 10 := by norm_num
        constructor
        · intro hud; omega
        · intro hlt; rw [h2] at hlt; omega
      | succ j =>
        have hrec := ih (n / 10) (Nat.div_lt_self (by omega) (by omega)) j
        have hmul : (10 : Nat) ^ (j + 1) * 10 = 10 ^ (j + 1 + 1) := by ring
        constructor
        · intro hle
          have h1 : (natDigits (n / 10)).length ≤ j + 1 := by omega
          have h2 : n / 10 < 10 ^ (j + 1) := hrec.mp h1
          have h3 : n < 10 ^ (j + 1) * 10 := (Nat.div_lt_iff_lt_mul (by omega)).mp h2
          omega
        · intro hlt
          have h2 : n / 10 < 10 ^ (j + 1) := by
            apply (Nat.div_lt_iff_lt_mul (by omega)).mpr
            omega
          have := hrec.mpr h2
          omega

theorem digitChar_isDigit (m : Nat) (h : m < 10) :
    (Nat.digitChar m).isDigit = true := by
  interval_cases m <;> decide

theorem natDigits_all_isDigit :
    ∀ n : Nat, ∀ c ∈ natDigits n, c.isDigit = true := by
  intro n
  induction n using Nat.strong_induction_on with
  | _ n ih =>
    intro c hc
    rw [natDigits] at hc
    split at hc
    · rename_i h
      simp only [List.mem_singleton] at hc
      subst hc
      exact digitChar_isDigit n h
    · rename_i h
      rw [List.mem_append, List.mem_singleton] at hc
      rcases hc with hc | hc
      · exact ih (n / 10) (Nat.div_lt_self (by omega) (by omega)) c hc
      · subst hc
        exact digitChar_isDigit (n % 10) (Nat.mod_lt n (by omega))

theorem padLeft_data (s : String) (w : Nat) :
    (padLeft s w).data = List.replicate (w - s.length) '0' ++ s.data := rfl

theorem padLeft_length (s : String) (w : Nat) :
    (padLeft s w).length = (w - s.length) + s.length := by
  show (List.replicate (w - s.length) '0' ++ s.data).length = _
  rw [List.length_append, List.length_replicate]
  rfl

theorem photoId_of_nonneg (n : Int) (h : 0 ≤ n) :
    photoId n = padLeft ⟨natDigits n.toNat⟩ 4 := by
  rw [photoId, if_neg (by omega)]

theorem photoId_of_neg (n : Int) (h : n < 0) :
    photoId n = "-" ++ padLeft ⟨natDigits (-n).toNat⟩ 3 := by
  rw [photoId, if_pos h]

theorem string_mk_length (l : List Char) : (String.mk l).length = l.length := rfl

theorem fourDigitId_photoId_iff (n : Int) :
    fourDigitId (photoId n) = true ↔ 0 ≤ n ∧ n ≤ 9999 := by
  rcases lt_or_le n 0 with hneg | hpos
  · rw [photoId_of_neg n hneg]
    constructor
    · intro hfd
      exfalso
      have hdata : ("-" ++ padLeft ⟨natDigits (-n).toNat⟩ 3).data
          = '-' :: (padLeft ⟨natDigits (-n).toNat⟩ 3).data := by
        rw [String.data_append]; rfl
      rw [fourDigitId, Bool.and_eq_true, hdata] at hfd
      have := hfd.2
      simp only [List.all_cons, Bool.and_eq_true] at this
      exact absurd this.1 (by decide)
    · intro hle; omega
  · rw [photoId_of_nonneg n hpos]
    have hlen : (padLeft ⟨natDigits n.toNat⟩ 4).length
        = (4 - (natDigits n.toNat).length) + (natDigits n.toNat).length := by
      rw [padLeft_length, string_mk_length]
    have hdig : ∀ c ∈ (padLeft ⟨natDigits n.toNat⟩ 4).data, c.isDigit = true := by
      intro c hc
      rw [padLeft_data] at hc
      rcases List.mem_append.mp hc with hc | hc
      · rw [List.eq_of_mem_replicate hc]; decide
      · exact natDigits_all_isDigit n.toNat c hc
    rw [fourDigitId, Bool.and_eq_true]
    have hall : ((padLeft ⟨natDigits n.toNat⟩ 4).data.all Char.isDigit) = true :=
      List.all_eq_true.mpr hdig
    have hiff : (natDigits n.toNat).length ≤ 4 ↔ n.toNat < 10000 := by
      have := natDigits_length_le_iff n.toNat 3
      norm_num at this
      exact this
    constructor
    · intro hfd
      have h4 : (padLeft ⟨natDigits n.toNat⟩ 4).length = 4 := by simpa using hfd.1
      rw [hlen] at h4
      have hle : (natDigits n.toNat).length ≤ 4 := by omega
      have := hiff.mp hle
      exact ⟨hpos, by omega⟩
    · intro hb
      refine ⟨?_, hall⟩
      have hlt : n.toNat < 10000 := by omega
      have hle := hiff.mpr hlt
      have h1 := natDigits_length_pos n.toNat
      have h4 : (padLeft ⟨natDigits n.toNat⟩ 4).length = 4 := by rw [hlen]; omega
      rw [h4]
      rfl

/-! ### Characterization of the download loop, field by field -/

theorem downloadLoop_count (s : Int) (w : Nat → ItemWorld) :
    ∀ (l : List String) (i : Nat),
      (downloadLoop s w i l).result.success
        + (downloadLoop s w i l).result.failed.length = l.length := by
  intro l
  induction l with
  | nil => intro i; rfl
  | cons u rest ih =>
    intro i
    have htail := ih (i + 1)
    simp only [downloadLoop]
    rcases hf : (w i).fetch with e | d
    · simp only [List.length_cons]
      simpa using by omega
    · rcases hw : (w i).write with e | x
      · simp only [List.length_cons]
        simpa using by omega
      · simp only [List.length_cons]
        simpa using by omega

theorem downloadLoop_ids (s : Int) (w : Nat → ItemWorld) :
    ∀ (l : List String) (i : Nat),
      (downloadLoop s w i l).ids
        = (List.range l.length).map (fun j => photoId (s + (↑(i + j) : Int))) := by
  intro l
  induction l with
  | nil => intro i; rfl
  | cons u rest ih =>
    intro i
    have htail := ih (i + 1)
    simp only [downloadLoop, List.length_cons, List.range_succ_eq_map,
      List.map_cons, List.map_map]
    have harg : (fun j => photoId (s + (↑(i + j) : Int))) ∘ Nat.succ
        = fun j => photoId (s + (↑(i + 1 + j) : Int)) := by
      funext j
      simp only [Function.comp]
      congr 1
      push_cast
      ring
    rcases hf : (w i).fetch with e | d
    · simp only [htail, harg, Nat.add_zero]
    · rcases hw : (w i).write with e | x <;>
        simp only [htail, harg, Nat.add_zero]

theorem downloadLoop_requests (s : Int) (w : Nat → ItemWorld) :
    ∀ (l : List String) (i : Nat),
      (downloadLoop s w i l).requests
        = l.map (fun u => Request.mk u userAgentHeader 30) := by
  intro l
  induction l with
  | nil => intro i; rfl
  | cons u rest ih =>
    intro i
    have htail := ih (i + 1)
    simp only [downloadLoop, List.map_cons]
    rcases hf : (w i).fetch with e | d
    · simp only [htail]
    · rcases hw : (w i).write with e | x <;> simp only [htail]

theorem downloadLoop_failed (s : Int) (w : Nat → ItemWorld) :
    ∀ (l : List String) (i : Nat),
      (downloadLoop s w i l).result.failed
        = (List.range l.length).filterMap
            (fun j => (itemError (w (i + j))).map
              (fun e => (photoId (s + (↑(i + j) : Int)), e))) := by
  intro l
  induction l with
  | nil => intro i; rfl
  | cons u rest ih =>
    intro i
    have htail := ih (i + 1)
    have hshift : ∀ j : Nat, i + 1 + j = i + (j + 1) := fun j => by omega
    simp only [hshift] at htail
    simp only [downloadLoop, List.length_cons, List.range_succ_eq_map,
      List.filterMap_cons, List.filterMap_map, Function.comp_def,
      Nat.succ_eq_add_one, Nat.add_zero]
    rcases hf : (w i).fetch with e | d
    · simp [itemError, hf, htail]
    · rcases hw : (w i).write with e | x
      · simp [itemError, hf, hw, htail]
      · simp [itemError, hf, hw, htail]

theorem downloadLoop_success (s : Int) (w : Nat → ItemWorld) :
    ∀ (l : List String) (i : Nat),
      (downloadLoop s w i l).result.success
        = ((List.range l.length).filter (fun j => itemOk (w (i + j)))).length := by
  intro l
  induction l with
  | nil => intro i; rfl
  | cons u rest ih =>
    intro i
    have htail := ih (i + 1)
    have hshift : ∀ j : Nat, i + 1 + j = i + (j + 1) := fun j => by omega
    simp only [hshift] at htail
    simp only [downloadLoop, List.length_cons, List.range_succ_eq_map,
      List.filter_cons, List.filter_map, Function.comp_def,
      Nat.succ_eq_add_one, Nat.add_zero]
    rcases hf : (w i).fetch with e | d
    · simp [itemOk, hf, htail]
    · rcases hw : (w i).write with e | x
      · simp [itemOk, hf, hw, htail]
      · simp [itemOk, hf, hw, htail]

theorem downloadLoop_sizes (s : Int) (w : Nat → ItemWorld) :
    ∀ (l : List String) (i : Nat),
      (downloadLoop s w i l).result.sizes
        = (List.range l.length).filterMap
            (fun j => (fetchedBytes (w (i + j))).map
              (fun d => (photoId (s + (↑(i + j) : Int)), d.length))) := by
  intro l
  induction l with
  | nil => intro i; rfl
  | cons u rest ih =>
    intro i
    have htail := ih (i + 1)
    have hshift : ∀ j : Nat, i + 1 + j = i + (j + 1) := fun j => by omega
    simp only [hshift] at htail
    simp only [downloadLoop, List.length_cons, List.range_succ_eq_map,
      List.filterMap_cons, List.filterMap_map, Function.comp_def,
      Nat.succ_eq_add_one, Nat.add_zero]
    rcases hf : (w i).fetch with e | d
    · simp [fetchedBytes, hf, htail]
    · rcases hw : (w i).write with e | x
      · simp [fetchedBytes, hf, hw, htail]
      · simp [fetchedBytes, hf, hw, htail]

theorem downloadLoop_files (s : Int) (w : Nat → ItemWorld) :
    ∀ (l : List String) (i : Nat),
      (downloadLoop s w i l).files
        = (List.range l.length).filterMap
            (fun j => (fetchedBytes (w (i + j))).map
              (fun d => (filePath (photoId (s + (↑(i + j) : Int))), d))) := by
  intro l
  induction l with
  | nil => intro i; rfl
  | cons u rest ih =>
    intro i
    have htail := ih (i + 1)
    have hshift : ∀ j : Nat, i + 1 + j = i + (j + 1) := fun j => by omega
    simp only [hshift] at htail
    simp only [downloadLoop, List.length_cons, List.range_succ_eq_map,
      List.filterMap_cons, List.filterMap_map, Function.comp_def,
      Nat.succ_eq_add_one, Nat.add_zero]
    rcases hf : (w i).fetch with e | d
    · simp [fetchedBytes, hf, htail]
    · rcases hw : (w i).write with e | x
      · simp [fetchedBytes, hf, hw, htail]
      · simp [fetchedBytes, hf, hw, htail]

theorem itemOk_iff (iw : ItemWorld) : itemOk iw = true ↔ itemError iw = none := by
  rcases iw with ⟨f, wr⟩
  cases f <;> cases wr <;> simp [itemOk, itemError]

/-! ### The claims -/

/-- C1: for every batch run of `download_batch` the number of Download
Outcomes recorded — the success count plus the length of the failure list —
equals the number of URLs supplied, for every pattern of per-item success
and failure (every external world). -/
theorem download_batch_outcome_count (s : Int) (urls : List String)
    (w : Nat → ItemWorld) :
    (download_batch s urls w).result.success
      + (download_batch s urls w).result.failed.length = urls.length :=
  downloadLoop_count s w urls 0

/-- C2: the photo IDs computed by a batch run are exactly
`start_num + i` formatted by `f"{·:04d}"` (the embedded `photoId`), at
0-indexed position `i`, in strict input-list order with no gaps or
reordering; the right-hand side does not mention the world, so the
assignment is identical no matter which downloads succeed or fail. -/
theorem download_batch_photoId_assignment (s : Int) (urls : List String)
    (w : Nat → ItemWorld) :
    (download_batch s urls w).ids
      = (List.range urls.length).map (fun i : Nat => photoId (s + (↑i : Int))) := by
  have h := downloadLoop_ids s w urls 0
  simp only [Nat.zero_add] at h
  exact h

/-- C3: if the fetch or write of the URL at position `i` raises with message
`e`, then `(photo_id, e)` appears in the failure list, and the batch still
attempts every URL in the list: exactly one request per supplied URL is
issued, a per-item failure never aborts the batch. -/
theorem download_batch_failure_recorded (s : Int) (urls : List String)
    (w : Nat → ItemWorld) (i : Nat) (e : String)
    (hi : i < urls.length) (he : itemError (w i) = some e) :
    (photoId (s + (↑i : Int)), e) ∈ (download_batch s urls w).result.failed
      ∧ (download_batch s urls w).requests
          = urls.map (fun u => Request.mk u "Mozilla/5.0" 30) := by
  constructor
  · have hchar := downloadLoop_failed s w urls 0
    simp only [Nat.zero_add] at hchar
    show ((photoId (s + (↑i : Int)), e)
        ∈ (downloadLoop s w 0 urls).result.failed)
    rw [hchar]
    refine List.mem_filterMap.mpr ⟨i, List.mem_range.mpr hi, ?_⟩
    rw [he]
    rfl
  · simpa [userAgentHeader] using downloadLoop_requests s w urls 0

theorem download_batch_failure_recorded_witness :
    (photoId ((5 : Int) + ((0 : Nat) : Int)), "boom")
        ∈ (download_batch 5 ["a", "b"]
            (fun i => if i = 0 then ⟨Except.error "boom", Except.ok ()⟩
              else ⟨Except.ok [7], Except.ok ()⟩)).result.failed
      ∧ (download_batch 5 ["a", "b"]
            (fun i => if i = 0 then ⟨Except.error "boom", Except.ok ()⟩
              else ⟨Except.ok [7], Except.ok ()⟩)).requests
          = (["a", "b"] : List String).map (fun u => Request.mk u "Mozilla/5.0" 30) :=
  download_batch_failure_recorded 5 ["a", "b"]
    (fun i => if i = 0 then ⟨Except.error "boom", Except.ok ()⟩
      else ⟨Except.ok [7], Except.ok ()⟩) 0 "boom" (by decide) (by decide)

/-- C4: when every URL fetch and every file write succeeds, the Batch
Result's success count equals the number of URLs and the failure list is
empty. -/
theorem download_batch_all_success (s : Int) (urls : List String)
    (w : Nat → ItemWorld) (h : ∀ i, i < urls.length → itemOk (w i) = true) :
    (download_batch s urls w).result.success = urls.length
      ∧ (download_batch s urls w).result.failed = [] := by
  constructor
  · show (downloadLoop s w 0 urls).result.success = urls.length
    rw [downloadLoop_success s w urls 0]
    have : (List.range urls.length).filter (fun j => itemOk (w (0 + j)))
        = List.range urls.length := by
      apply List.filter_eq_self.mpr
      intro a ha
      rw [Nat.zero_add]
      exact h a (List.mem_range.mp ha)
    rw [this, List.length_range]
  · show (downloadLoop s w 0 urls).result.failed = []
    rw [downloadLoop_failed s w urls 0]
    apply List.filterMap_eq_nil_iff.mpr
    intro a ha
    have hok : itemError (w (0 + a)) = none := by
      rw [Nat.zero_add]
      exact (itemOk_iff (w a)).mp (h a (List.mem_range.mp ha))
    rw [hok]
    rfl

theorem download_batch_all_success_witness :
    (download_batch 5 ["a", "b"]
        (fun _ => ⟨Except.ok [1, 2, 3], Except.ok ()⟩)).result.success
        = (["a", "b"] : List String).length
      ∧ (download_batch 5 ["a", "b"]
          (fun _ => ⟨Except.ok [1, 2, 3], Except.ok ()⟩)).result.failed = [] :=
  download_batch_all_success 5 ["a", "b"]
    (fun _ => ⟨Except.ok [1, 2, 3], Except.ok ()⟩) (by decide)

/-- C5: for every successfully fetched URL at position `i` whose write also
succeeds, the full raw response body `d` is recorded as written to the file
`IMAGES_DIR/<photo_id>.jpg`, and the pair `(photo_id, byte_length)` recorded
in the sizes list has `byte_length` equal to the length of the body
written. -/
theorem download_batch_success_file_size (s : Int) (urls : List String)
    (w : Nat → ItemWorld) (i : Nat) (d : List Nat)
    (hi : i < urls.length) (hf : (w i).fetch = Except.ok d)
    (hw : (w i).write = Except.ok ()) :
    (filePath (photoId (s + (↑i : Int))), d) ∈ (download_batch s urls w).files
      ∧ (photoId (s + (↑i : Int)), d.length)
          ∈ (download_batch s urls w).result.sizes := by
  have hb : fetchedBytes (w i) = some d := by
    rw [fetchedBytes, hf, hw]
  constructor
  · have hchar := downloadLoop_files s w urls 0
    simp only [Nat.zero_add] at hchar
    show _ ∈ (downloadLoop s w 0 urls).files
    rw [hchar]
    refine List.mem_filterMap.mpr ⟨i, List.mem_range.mpr hi, ?_⟩
    rw [hb]
    rfl
  · have hchar := downloadLoop_sizes s w urls 0
    simp only [Nat.zero_add] at hchar
    show _ ∈ (downloadLoop s w 0 urls).result.sizes
    rw [hchar]
    refine List.mem_filterMap.mpr ⟨i, List.mem_range.mpr hi, ?_⟩
    rw [hb]
    rfl

theorem download_batch_success_file_size_witness :
    (filePath (photoId ((5 : Int) + ((1 : Nat) : Int))), [9, 9])
        ∈ (download_batch 5 ["a", "b"]
            (fun _ => ⟨Except.ok [9, 9], Except.ok ()⟩)).files
      ∧ (photoId ((5 : Int) + ((1 : Nat) : Int)), ([9, 9] : List Nat).length)
          ∈ (download_batch 5 ["a", "b"]
              (fun _ => ⟨Except.ok [9, 9], Except.ok ()⟩)).result.sizes :=
  download_batch_success_file_size 5 ["a", "b"]
    (fun _ => ⟨Except.ok [9, 9], Except.ok ()⟩) 1 [9, 9]
    (by decide) rfl rfl

/-- C6: every batch run issues exactly one HTTP GET request per supplied
URL, in order, each with the 30-second timeout and the browser-like
`Mozilla/5.0` User-Agent header. -/
theorem download_batch_one_request_per_url (s : Int) (urls : List String)
    (w : Nat → ItemWorld) :
    (download_batch s urls w).requests
      = urls.map (fun u => Request.mk u "Mozilla/5.0" 30) := by
  simpa [userAgentHeader] using downloadLoop_requests s w urls 0

/-- C7: an invocation with fewer than two command-line arguments after the
program name (`len(sys.argv) < 3`) prints the usage message and exits with
status 1, with no batch run (no trace, hence no downloads). -/
theorem main_usage_on_short_argv (argv : List String) (w : Nat → ItemWorld)
    (h : argv.length < 3) :
    main argv w = ⟨1, true, none⟩ := by
  rw [main, if_pos h]

theorem main_usage_on_short_argv_witness :
    main ["download_images.py", "5"] (fun _ => ⟨Except.ok [1], Except.ok ()⟩)
      = ⟨1, true, none⟩ :=
  main_usage_on_short_argv ["download_images.py", "5"]
    (fun _ => ⟨Except.ok [1], Except.ok ()⟩) (by decide)

/-- C8: the process exit status is 0 on normal completion and 1 exactly on a
malformed invocation (too few arguments, or an unparsable start number); the
right-hand side does not mention the world, so per-item download failures —
some or all — never change the exit status. -/
theorem main_exit_code (argv : List String) (w : Nat → ItemWorld) :
    (main argv w).exit = if malformedInvocation argv then 1 else 0 := by
  by_cases h3 : argv.length < 3
  · simp [main, malformedInvocation, h3]
  · cases hp : (argv[1]?).bind String.toInt? <;>
      simp [main, malformedInvocation, h3, hp, List.get?_eq_getElem?]

/-- C9: the 4-digit zero-padding of photo IDs pads but never truncates —
every photo ID has at least 4 characters; past 9999 the string grows beyond
4 characters; a negative value carries a leading minus sign; and the batch's
photo IDs are all fixed-width 4-digit numerals exactly when
`0 ≤ start_num` and `start_num + len(urls) - 1 ≤ 9999`. -/
theorem photoId_fixed_width (s : Int) (urls : List String) (h : urls ≠ []) :
    (∀ n : Int, 4 ≤ (photoId n).length)
      ∧ (∀ n : Int, 9999 < n → 4 < (photoId n).length)
      ∧ (∀ n : Int, n < 0 → (photoId n).data.head? = some '-')
      ∧ ((∀ i : Nat, i < urls.length → fourDigitId (photoId (s + (↑i : Int))) = true)
          ↔ 0 ≤ s ∧ s + (↑urls.length : Int) - 1 ≤ 9999) := by
  have hpad : ∀ n : Int, 0 ≤ n →
      (photoId n).length
        = (4 - (natDigits n.toNat).length) + (natDigits n.toNat).length := by
    intro n hn
    rw [photoId_of_nonneg n hn, padLeft_length, string_mk_length]
  have hneglen : ∀ n : Int, n < 0 →
      (photoId n).length
        = 1 + ((3 - (natDigits (-n).toNat).length) + (natDigits (-n).toNat).length) := by
    intro n hn
    rw [photoId_of_neg n hn, String.length_append, padLeft_length, string_mk_length]
    rfl
  refine ⟨?_, ?_, ?_, ?_⟩
  · intro n
    rcases lt_or_le n 0 with hn | hn
    · rw [hneglen n hn]
      have := natDigits_length_pos (-n).toNat
      omega
    · rw [hpad n hn]
      have := natDigits_length_pos n.toNat
      omega
  · intro n hn
    have h0 : (0 : Int) ≤ n := by omega
    rw [hpad n h0]
    have hiff := natDigits_length_le_iff n.toNat 3
    norm_num at hiff
    have : ¬ n.toNat < 10000 := by omega
    have h5 : ¬ (natDigits n.toNat).length ≤ 4 := fun hc => this (hiff.mp hc)
    omega
  · intro n hn
    rw [photoId_of_neg n hn, String.data_append]
    rfl
  · have hlen : 0 < urls.length := List.length_pos.mpr h
    constructor
    · intro hall
      have h0 := (fourDigitId_photoId_iff (s + ((0 : Nat) : Int))).mp (hall 0 hlen)
      have hl := (fourDigitId_photoId_iff (s + ((urls.length - 1 : Nat) : Int))).mp
        (hall (urls.length - 1) (by omega))
      constructor
      · omega
      · have := hl.2
        omega
    · intro hb i hi
      apply (fourDigitId_photoId_iff (s + (↑i : Int))).mpr
      omega

theorem photoId_fixed_width_witness :
    (["http://a/x.jpg"] : List String) ≠ []
      ∧ ((∀ n : Int, 4 ≤ (photoId n).length)
        ∧ (∀ n : Int, 9999 < n → 4 < (photoId n).length)
        ∧ (∀ n : Int, n < 0 → (photoId n).data.head? = some '-')
        ∧ ((∀ i : Nat, i < (["http://a/x.jpg"] : List String).length →
              fourDigitId (photoId ((5 : Int) + (↑i : Int))) = true)
            ↔ (0 : Int) ≤ 5
              ∧ (5 : Int) + (↑(["http://a/x.jpg"] : List String).length : Int) - 1 ≤ 9999)) :=
  ⟨by decide, photoId_fixed_width 5 ["http://a/x.jpg"] (by decide)⟩

/-- C10: each item's result update is atomic.  If the item at position `i`
raises during fetch or write (error message `e`), then the loop run from
item `i` on differs from the loop run from item `i + 1` on exactly by one
entry `(photo_id, e)` prepended to the failure list: the success count is
not incremented and the sizes list gets no entry for the item. -/
theorem item_failure_atomic (s : Int) (urls : List String)
    (w : Nat → ItemWorld) (i : Nat) (e : String)
    (hi : i < urls.length) (he : itemError (w i) = some e) :
    (downloadLoop s w i (urls.drop i)).result.success
        = (downloadLoop s w (i + 1) (urls.drop (i + 1))).result.success
      ∧ (downloadLoop s w i (urls.drop i)).result.sizes
        = (downloadLoop s w (i + 1) (urls.drop (i + 1))).result.sizes
      ∧ (downloadLoop s w i (urls.drop i)).result.failed
        = (photoId (s + (↑i : Int)), e)
            :: (downloadLoop s w (i + 1) (urls.drop (i + 1))).result.failed := by
  have hdrop : urls.drop i = urls[i] :: urls.drop (i + 1) :=
    List.drop_eq_getElem_cons hi
  rw [hdrop]
  rcases hf : (w i).fetch with e' | d
  · have he' : e' = e := by
      rw [itemError, hf] at he
      exact Option.some.inj he
    subst he'
    refine ⟨?_, ?_, ?_⟩ <;> simp [downloadLoop, hf]
  · rcases hw : (w i).write with e' | x
    · have he' : e' = e := by
        rw [itemError, hf, hw] at he
        exact Option.some.inj he
      subst he'
      refine ⟨?_, ?_, ?_⟩ <;> simp [downloadLoop, hf, hw]
    · exfalso
      rw [itemError, hf, hw] at he
      exact Option.noConfusion he

theorem item_failure_atomic_witness :
    (downloadLoop 5
        (fun j => if j = 1 then ⟨Except.error "timeout", Except.ok ()⟩
          else ⟨Except.ok [1], Except.ok ()⟩) 1 ((["a", "b", "c"] : List String).drop 1)).result.success
        = (downloadLoop 5
            (fun j => if j = 1 then ⟨Except.error "timeout", Except.ok ()⟩
              else ⟨Except.ok [1], Except.ok ()⟩) 2 ((["a", "b", "c"] : List String).drop 2)).result.success
      ∧ (downloadLoop 5
          (fun j => if j = 1 then ⟨Except.error "timeout", Except.ok ()⟩
            else ⟨Except.ok [1], Except.ok ()⟩) 1 ((["a", "b", "c"] : List String).drop 1)).result.sizes
        = (downloadLoop 5
            (fun j => if j = 1 then ⟨Except.error "timeout", Except.ok ()⟩
              else ⟨Except.ok [1], Except.ok ()⟩) 2 ((["a", "b", "c"] : List String).drop 2)).result.sizes
      ∧ (downloadLoop 5
          (fun j => if j = 1 then ⟨Except.error "timeout", Except.ok ()⟩
            else ⟨Except.ok [1], Except.ok ()⟩) 1 ((["a", "b", "c"] : List String).drop 1)).result.failed
        = (photoId ((5 : Int) + ((1 : Nat) : Int)), "timeout")
            :: (downloadLoop 5
                (fun j => if j = 1 then ⟨Except.error "timeout", Except.ok ()⟩
                  else ⟨Except.ok [1], Except.ok ()⟩) 2 ((["a", "b", "c"] : List String).drop 2)).result.failed :=
  item_failure_atomic 5 ["a", "b", "c"]
    (fun j => if j = 1 then ⟨Except.error "timeout", Except.ok ()⟩
      else ⟨Except.ok [1], Except.ok ()⟩) 1 "timeout" (by decide) (by decide)

end OrcasHistory
